import Mathlib

/-!
Shallow embedding of `src/main.cpp` (Arduino-MQL): a single-loop embedded
controller driving a stepper motor, with a button gesture classifier, a
calibration engine persisting to EEPROM, and an LCD presenter.

Modelling conventions:
- `millis()` values and press durations are `Nat` (the code only ever
  subtracts a start time from a later time, so unsigned wraparound never
  produces a different result than `Nat` subtraction on the monotone clock).
- LCD calls are recorded as a list of `LCDAction`s produced by each handler.
- EEPROM is a function `Nat → Nat` from address to byte content.
  `EEPROM.update(addr, v)` only writes when the stored byte differs, but the
  resulting contents are the same as a plain store, which is how we model it.
- `digitalRead(BUTTON_PIN)`, `millis()` and `analogRead(POTENTIOMETER_PIN)`
  within one loop iteration are modelled by a per-iteration `Env` record
  (one sample of each per iteration).
- `queryForMeasuredLiquid` busy-polls the potentiometer until the button is
  pressed; we model its completed effect: the single `lcd.clear()` and the
  prompt at entry, the final reading render, and the returned mapped value.
  The polling loop body contains no `lcd.clear()`, so collapsing the
  repeated re-renders of line 1 into the final one preserves clear counts.
- `storeCalibrationValue` computes `(float)totalRevolutions / measuredLiquid`
  and passes it to `EEPROM.update`, which takes a byte: the float is
  converted to an integer by truncation toward zero. We model the ratio in
  `ℚ`; for the values reachable in this program (`totalRevolutions = 10`,
  `measuredLiquid ∈ [1,20]`) the float quotient truncates to the same byte
  as the rational floor. At `measuredLiquid = 0` the C++ float division
  yields infinity and the byte conversion is undefined; the model records
  faithfully that the function performs the division and the persist
  unconditionally (its body contains no branch), via the `didDivide` and
  `didPersist` fields.
-/

/-- `DEBOUNCE_TIME`: 50 ms debounce period. -/
def DEBOUNCE_TIME : Nat := 50

/-- `LONG_PRESS_TIME`: 5 seconds for long press. -/
def LONG_PRESS_TIME : Nat := 5000

/-- `FAST_PRESS_TIME`: 1.5 seconds for fast press. -/
def FAST_PRESS_TIME : Nat := 1500

/-- `CALIBRATION_ADDR`: the fixed EEPROM address of the calibration scalar. -/
def CALIBRATION_ADDR : Nat := 0

/-- `STEPS_PER_REVOLUTION` from the source. -/
def STEPS_PER_REVOLUTION : Nat := 400

/-- The `SystemState` enum of the source. -/
inductive SystemState
  | Idle
  | CalibrationMenu
  | Calibrating
  | Purging
  | Running
  | Canceled
deriving DecidableEq, Repr

/-- One recorded LCD collaborator call.
`write b` is `lcd.write` of the byte `b` (255 = filled block, 95 = '_'). -/
inductive LCDAction
  | clear
  | setCursor (col row : Nat)
  | lcdPrint (s : String)
  | write (b : Nat)
deriving DecidableEq, Repr

/-- `static` locals of `handleCalibrationMenuState`. -/
structure CalibMenuStatics where
  isWaitingForButtonRelease : Bool
  buttonPressStartTime : Nat
deriving DecidableEq, Repr

/-- `static` locals of `handlePurgingState`. -/
structure PurgeStatics where
  isPurging : Bool
  purgeEndTime : Nat
deriving DecidableEq, Repr

/-- The file-scope mutable state of the program: the state machine
variables, the ISR timing globals, the handler statics, and the EEPROM. -/
structure Machine where
  currentState : SystemState
  previousState : SystemState
  isButtonPressed : Bool
  buttonPressStartTime : Nat
  calibMenu : CalibMenuStatics
  purge : PurgeStatics
  eeprom : Nat → Nat

/-- The hardware samples consumed by one loop iteration:
`buttonLow` is `digitalRead(BUTTON_PIN) == LOW` (pressed), `now` is
`millis()`, and `analogRaw` is the potentiometer reading in `[0, 1023]`
at the moment `queryForMeasuredLiquid`'s confirm press arrives. -/
structure Env where
  buttonLow : Bool
  now : Nat
  analogRaw : Nat
deriving DecidableEq, Repr

/-- Arduino `map(x, inMin, inMax, outMin, outMax)`:
`(x - inMin) * (outMax - outMin) / (inMax - inMin) + outMin` in `long`
arithmetic. At the single call site all quantities are nonnegative and
`x ≥ inMin`, where C integer division agrees with `Nat` division. -/
def mapRange (x inMin inMax outMin outMax : Nat) : Nat :=
  (x - inMin) * (outMax - outMin) / (inMax - inMin) + outMin

/-- `centerTextOnLCD(text, row)`: cursor to `(16 - len)/2`, print.
All texts passed in the source are shorter than 16 characters, so the
C `int` division never sees a negative numerator. -/
def centerTextOnLCD (text : String) (row : Nat) : List LCDAction :=
  [LCDAction.setCursor ((16 - text.length) / 2) row, LCDAction.lcdPrint text]

/-- `displayCalibrationProgress(progressPercent)`: 16-cell progress bar,
`filledBlocks = progressPercent * 16 / 100` (C integer division, which is
floor for the nonnegative percentages this renderer is given), then
`filledBlocks` writes of byte 255 and `16 - filledBlocks` writes of '_'. -/
def displayCalibrationProgress (progressPercent : Nat) : List LCDAction :=
  let totalBlocks := 16
  let filledBlocks := progressPercent * totalBlocks / 100
  LCDAction.setCursor 0 1 ::
    (List.replicate filledBlocks (LCDAction.write 255) ++
     List.replicate (totalBlocks - filledBlocks) (LCDAction.write 95))

/-- `queryForMeasuredLiquid()`: clears the LCD, prompts, busy-polls the
potentiometer (`map(analogRead(..), 0, 1023, 1, 20)`) re-rendering line 1
until the button is pressed, then returns the last reading. Modelled as the
completed call: the returned value and the recorded LCD calls (the single
`clear` at entry, the prompt, and the final line-1 render). -/
def queryForMeasuredLiquid (analogRaw : Nat) : Nat × List LCDAction :=
  let measuredLiquid := mapRange analogRaw 0 1023 1 20
  (measuredLiquid,
   [LCDAction.clear, LCDAction.setCursor 0 0,
    LCDAction.lcdPrint "Set liquid vol.",
    LCDAction.setCursor 0 1, LCDAction.lcdPrint (toString measuredLiquid),
    LCDAction.lcdPrint " ml   "])

/-- Result of `storeCalibrationValue`: whether the division and the
`EEPROM.update` were executed, and the EEPROM contents afterwards. -/
structure StoreResult where
  didDivide : Bool
  didPersist : Bool
  eeprom : Nat → Nat

/-- The ratio `(float)totalRevolutions / measuredLiquid`, modelled in `ℚ`. -/
def revolutionsPerML (totalRevolutions measuredLiquid : Nat) : ℚ :=
  (totalRevolutions : ℚ) / (measuredLiquid : ℚ)

/-- Conversion of the float ratio to the byte handed to `EEPROM.update`
(truncation toward zero; the reachable ratios are nonnegative and small). -/
def ratioToByte (q : ℚ) : Nat :=
  q.floor.toNat % 256

/-- `EEPROM.update(addr, v)`: contents afterwards (update skips the write
when the stored byte already equals `v`; the contents are the same). -/
def eepromUpdate (e : Nat → Nat) (addr v : Nat) : Nat → Nat :=
  fun a => if a = addr then v else e a

/-- `storeCalibrationValue(measuredLiquid, totalRevolutions)`:
`float revolutionsPerML = (float)totalRevolutions / measuredLiquid;`
`EEPROM.update(CALIBRATION_ADDR, revolutionsPerML);`
The body has no conditional: it divides and persists unconditionally. -/
def storeCalibrationValue (measuredLiquid totalRevolutions : Nat)
    (e : Nat → Nat) : StoreResult :=
  { didDivide := true
    didPersist := true
    eeprom := eepromUpdate e CALIBRATION_ADDR
      (ratioToByte (revolutionsPerML totalRevolutions measuredLiquid)) }

/-- `handleIdleState()`: centers "Idle" on line 0, prints `Cal:` and the
literal string `"0"` on line 1 (the source never reads the EEPROM here;
its own comment says `Replace 'calibrationValue' with your variable`). -/
def handleIdleState (m : Machine) : Machine × List LCDAction :=
  let idleText := "Idle"
  let startPos := (16 - idleText.length) / 2
  (m, [LCDAction.setCursor startPos 0, LCDAction.lcdPrint idleText,
       LCDAction.setCursor 0 1, LCDAction.lcdPrint "Cal:",
       LCDAction.lcdPrint "0"])

/-- `handleCalibrationMenuState()`: waits for the entry press to be
released, renders the menu, then times a fresh press with its own `static`
timer; on release, `50 ≤ duration < 2000` enters Calibrating and
`duration ≥ 2000` enters Purging (local literal thresholds). -/
def handleCalibrationMenuState (m : Machine) (env : Env) :
    Machine × List LCDAction :=
  let s0 := m.calibMenu
  let s1 := if s0.isWaitingForButtonRelease && !env.buttonLow then
              { s0 with isWaitingForButtonRelease := false }
            else s0
  let acts := centerTextOnLCD "Press: Calib" 0 ++ centerTextOnLCD "Hold: Purge" 1
  let m1 :=
    if s1.isWaitingForButtonRelease then
      { m with calibMenu := s1 }
    else if env.buttonLow then
      let s2 := if s1.buttonPressStartTime = 0 then
                  { s1 with buttonPressStartTime := env.now }
                else s1
      { m with calibMenu := s2 }
    else if s1.buttonPressStartTime > 0 then
      let pressDuration := env.now - s1.buttonPressStartTime
      let s2 := { s1 with buttonPressStartTime := 0 }
      if 50 ≤ pressDuration ∧ pressDuration < 2000 then
        { m with calibMenu := s2, currentState := SystemState.Calibrating }
      else if 2000 ≤ pressDuration then
        { m with calibMenu := s2, currentState := SystemState.Purging }
      else
        { m with calibMenu := s2 }
    else
      { m with calibMenu := s1 }
  (m1, acts)

/-- `handleCalibratingState()`: runs the calibration motor for the
hard-coded `totalRevolutions = 10` (its display effect is the centered
"CALIBRATION" banner), queries the measured liquid, stores the calibration
value, and returns to Idle. -/
def handleCalibratingState (m : Machine) (env : Env) :
    Machine × List LCDAction :=
  let totalRevolutions := 10
  let motorActs := centerTextOnLCD "CALIBRATION" 0
  let q := queryForMeasuredLiquid env.analogRaw
  let store := storeCalibrationValue q.1 totalRevolutions m.eeprom
  ({ m with currentState := SystemState.Idle, eeprom := store.eeprom },
   motorActs ++ q.2)

/-- `handlePurgingState()`: before purging starts, renders the prompt and
starts on a press; while purging, a release first stamps `purgeEndTime`,
then exits to Idle once `millis() - purgeEndTime > 2000`, and any press
observed in between resets `purgeEndTime` to 0. -/
def handlePurgingState (m : Machine) (env : Env) : Machine × List LCDAction :=
  let p := m.purge
  if !p.isPurging then
    let acts := centerTextOnLCD "Hold purge" 0 ++
      [LCDAction.setCursor 0 1, LCDAction.lcdPrint "                "]
    if env.buttonLow then
      ({ m with purge := { isPurging := true, purgeEndTime := 0 } },
       acts ++ centerTextOnLCD "Purging.." 0)
    else
      ({ m with purge := p }, acts)
  else
    if !env.buttonLow then
      if p.purgeEndTime = 0 then
        ({ m with purge := { p with purgeEndTime := env.now } }, [])
      else if 2000 < env.now - p.purgeEndTime then
        ({ m with purge := { p with isPurging := false },
                  currentState := SystemState.Idle },
         centerTextOnLCD "Idle" 0)
      else
        (m, [])
    else
      ({ m with purge := { p with purgeEndTime := 0 } }, [])

/-- `handleRunningState()`: centers "Run" on line 0. -/
def handleRunningState (m : Machine) : Machine × List LCDAction :=
  let runText := "Run"
  let startPos := (16 - runText.length) / 2
  (m, [LCDAction.setCursor startPos 0, LCDAction.lcdPrint runText])

/-- `handleCanceledState()`: empty body. -/
def handleCanceledState (m : Machine) : Machine × List LCDAction :=
  (m, [])

/-- The press classification implicit in `handleButtonPress`'s branch
structure: below `DEBOUNCE_TIME` nothing, at or above `LONG_PRESS_TIME`
Long, otherwise at or below `FAST_PRESS_TIME` Fast/Short, and the band
strictly between `FAST_PRESS_TIME` and `LONG_PRESS_TIME` nothing. -/
inductive PressClassification
  | NoEvent
  | Fast
  | Long
deriving DecidableEq, Repr

/-- Classification of a press duration, with exactly the comparisons and
nesting of `handleButtonPress`. -/
def classifyPress (pressDuration : Nat) : PressClassification :=
  if DEBOUNCE_TIME ≤ pressDuration then
    if LONG_PRESS_TIME ≤ pressDuration then PressClassification.Long
    else if pressDuration ≤ FAST_PRESS_TIME then PressClassification.Fast
    else PressClassification.NoEvent
  else PressClassification.NoEvent

/-- `handleButtonPress()`: if a press is in flight, computes
`pressDuration = millis() - buttonPressStartTime` and applies the
transition rules, then clears `isButtonPressed`. -/
def handleButtonPress (m : Machine) (now : Nat) : Machine :=
  if m.isButtonPressed then
    let pressDuration := now - m.buttonPressStartTime
    let m1 :=
      if DEBOUNCE_TIME ≤ pressDuration then
        if LONG_PRESS_TIME ≤ pressDuration then
          { m with currentState := SystemState.CalibrationMenu }
        else if pressDuration ≤ FAST_PRESS_TIME then
          if m.currentState = SystemState.Idle then
            { m with currentState := SystemState.Running }
          else if m.currentState = SystemState.Running then
            { m with currentState := SystemState.Idle }
          else m
        else m
      else m
    { m1 with isButtonPressed := false }
  else m

/-- `buttonPressISR()`: on the pressed level starts timing (if not already
timing); on the released level, if a press was in flight, delegates to
`handleButtonPress`. -/
def buttonPressISR (m : Machine) (buttonLow : Bool) (now : Nat) : Machine :=
  if buttonLow then
    if !m.isButtonPressed then
      { m with buttonPressStartTime := now, isButtonPressed := true }
    else m
  else
    if m.isButtonPressed then handleButtonPress m now else m

/-- The `switch (currentState)` dispatch of `loop()`. -/
def dispatchState (m : Machine) (env : Env) : Machine × List LCDAction :=
  match m.currentState with
  | SystemState.Idle => handleIdleState m
  | SystemState.CalibrationMenu => handleCalibrationMenuState m env
  | SystemState.Calibrating => handleCalibratingState m env
  | SystemState.Purging => handlePurgingState m env
  | SystemState.Running => handleRunningState m
  | SystemState.Canceled => handleCanceledState m

/-- One iteration of `loop()`: clear the LCD (and latch `previousState`)
exactly when the state changed since the last iteration, then dispatch. -/
def loopIter (m : Machine) (env : Env) : Machine × List LCDAction :=
  if m.currentState ≠ m.previousState then
    let d := dispatchState { m with previousState := m.currentState } env
    (d.1, LCDAction.clear :: d.2)
  else
    dispatchState m env

/-- An atomic occurrence visible to the file-scope state: either one main
`loop()` iteration, or one run of the pin-change ISR. -/
inductive Event
  | tick (env : Env)
  | isr (buttonLow : Bool) (now : Nat)
deriving DecidableEq, Repr

/-- Small-step semantics of the whole program on the file-scope state. -/
def step (m : Machine) (e : Event) : Machine :=
  match e with
  | Event.tick env => (loopIter m env).1
  | Event.isr buttonLow now => buttonPressISR m buttonLow now

/-- When an event is a button release that completes an in-flight press,
the duration `handleButtonPress` computes for it; `none` otherwise. -/
def releaseDuration (m : Machine) (e : Event) : Option Nat :=
  match e with
  | Event.tick _ => none
  | Event.isr buttonLow now =>
      if buttonLow = false ∧ m.isButtonPressed = true then
        some (now - m.buttonPressStartTime)
      else none

/-- Number of `lcd.clear()` calls in a recorded action list. -/
def countClears : List LCDAction → Nat
  | [] => 0
  | LCDAction.clear :: rest => countClears rest + 1
  | _ :: rest => countClears rest

/-- Number of `lcd.write b` calls in a recorded action list. -/
def countWrites (b : Nat) : List LCDAction → Nat
  | [] => 0
  | LCDAction.write v :: rest =>
      (if v = b then 1 else 0) + countWrites b rest
  | _ :: rest => countWrites b rest

/-- A reference machine state used to instantiate theorems: state `cs`,
previous state `ps`, no press in flight, fresh statics, EEPROM all `v`. -/
def mkMachine (cs ps : SystemState) (v : Nat) : Machine :=
  { currentState := cs
    previousState := ps
    isButtonPressed := false
    buttonPressStartTime := 0
    calibMenu := { isWaitingForButtonRelease := true, buttonPressStartTime := 0 }
    purge := { isPurging := false, purgeEndTime := 0 }
    eeprom := fun _ => v }

/-- A machine in Idle with a press in flight that started at time 0. -/
def idlePressedMachine : Machine :=
  { mkMachine SystemState.Idle SystemState.Idle 0 with isButtonPressed := true }

/-- A machine mid-purge whose button release was stamped at time 100. -/
def purgingDemoMachine : Machine :=
  { mkMachine SystemState.Purging SystemState.Purging 0 with
      purge := { isPurging := true, purgeEndTime := 100 } }

/-- An environment sample with the button released at time 2200. -/
def purgingDemoEnv : Env :=
  { buttonLow := false, now := 2200, analogRaw := 0 }

/-! ## Helper lemmas -/

/-- `countClears` distributes over list append. -/
theorem countClears_append (a b : List LCDAction) :
    countClears (a ++ b) = countClears a + countClears b := by
  induction a with
  | nil => simp [countClears]
  | cons x rest ih => cases x <;> simp [countClears, ih] <;> omega

/-- `countWrites` distributes over list append. -/
theorem countWrites_append (b : Nat) (xs ys : List LCDAction) :
    countWrites b (xs ++ ys) = countWrites b xs + countWrites b ys := by
  induction xs with
  | nil => simp [countWrites]
  | cons x rest ih => cases x <;> simp [countWrites, ih] <;> omega

/-- `countWrites` on a run of identical writes. -/
theorem countWrites_replicate (b c n : Nat) :
    countWrites b (List.replicate n (LCDAction.write c)) =
      if c = b then n else 0 := by
  induction n with
  | zero => simp [countWrites]
  | succ k ih => simp [List.replicate, countWrites, ih]; split_ifs <;> omega

/-- Sub-debounce durations classify as no event. -/
theorem classifyPress_eq_noEvent_of_lt (d : Nat) (h : d < 50) :
    classifyPress d = PressClassification.NoEvent := by
  unfold classifyPress DEBOUNCE_TIME LONG_PRESS_TIME FAST_PRESS_TIME
  split_ifs <;> first | rfl | omega

/-- Durations in `[50, 1500]` classify as Fast. -/
theorem classifyPress_eq_fast (d : Nat) (h1 : 50 ≤ d) (h2 : d ≤ 1500) :
    classifyPress d = PressClassification.Fast := by
  unfold classifyPress DEBOUNCE_TIME LONG_PRESS_TIME FAST_PRESS_TIME
  split_ifs <;> first | rfl | omega

/-- Durations at or above 5000 classify as Long. -/
theorem classifyPress_eq_long (d : Nat) (h : 5000 ≤ d) :
    classifyPress d = PressClassification.Long := by
  unfold classifyPress DEBOUNCE_TIME LONG_PRESS_TIME FAST_PRESS_TIME
  split_ifs <;> first | rfl | omega

/-- Durations strictly between 1500 and 5000 classify as no event. -/
theorem classifyPress_eq_noEvent_of_band (d : Nat) (h1 : 1500 < d) (h2 : d < 5000) :
    classifyPress d = PressClassification.NoEvent := by
  unfold classifyPress DEBOUNCE_TIME LONG_PRESS_TIME FAST_PRESS_TIME
  split_ifs <;> first | rfl | omega

/-- Characterization of the state transition performed by `handleButtonPress`
when a press is in flight, in terms of the classification of its duration. -/
theorem handleButtonPress_spec (m : Machine) (now : Nat)
    (hp : m.isButtonPressed = true) :
    (handleButtonPress m now).currentState =
      (match classifyPress (now - m.buttonPressStartTime) with
       | PressClassification.Long => SystemState.CalibrationMenu
       | PressClassification.Fast =>
           if m.currentState = SystemState.Idle then SystemState.Running
           else if m.currentState = SystemState.Running then SystemState.Idle
           else m.currentState
       | PressClassification.NoEvent => m.currentState) := by
  simp only [handleButtonPress, classifyPress, hp, if_true]
  split_ifs <;> rfl

/-- `handleButtonPress` leaves `currentState` unchanged when no press is in
flight. -/
theorem handleButtonPress_of_not_pressed (m : Machine) (now : Nat)
    (hp : m.isButtonPressed = false) :
    handleButtonPress m now = m := by
  simp [handleButtonPress, hp]

/-! ## Claim theorems -/

/-- Claim C1: in the primary classifier `handleButtonPress`, a press-release
duration `d < 50` (DEBOUNCE_TIME) emits no event and leaves `currentState`
unchanged; `50 ≤ d ≤ 1500` (FAST_PRESS_TIME) classifies as Short/Fast;
`d ≥ 5000` (LONG_PRESS_TIME) classifies as Long; and a duration strictly
between 1500 and 5000 produces no classification and no state change. -/
theorem spec_C1 (m : Machine) (now d : Nat) (hp : m.isButtonPressed = true)
    (hd : d = now - m.buttonPressStartTime) :
    (d < 50 → classifyPress d = PressClassification.NoEvent ∧
      (handleButtonPress m now).currentState = m.currentState) ∧
    (50 ≤ d → d ≤ 1500 → classifyPress d = PressClassification.Fast) ∧
    (5000 ≤ d → classifyPress d = PressClassification.Long) ∧
    (1500 < d → d < 5000 → classifyPress d = PressClassification.NoEvent ∧
      (handleButtonPress m now).currentState = m.currentState) := by
  have hc := handleButtonPress_spec m now hp
  rw [← hd] at hc
  refine ⟨fun h => ?_, fun h1 h2 => ?_, fun h => ?_, fun h1 h2 => ?_⟩
  · have hn := classifyPress_eq_noEvent_of_lt d h
    exact ⟨hn, by rw [hc, hn]⟩
  · exact classifyPress_eq_fast d h1 h2
  · exact classifyPress_eq_long d h
  · have hn := classifyPress_eq_noEvent_of_band d h1 h2
    exact ⟨hn, by rw [hc, hn]⟩

/-- Claim C1 witness: instantiation at a machine in Idle with a press in
flight started at time 0 and released at time 40 (duration 40 < 50). -/
theorem spec_C1_witness :
    ({ mkMachine SystemState.Idle SystemState.Idle 0 with
        isButtonPressed := true } : Machine).isButtonPressed = true ∧
    (40 : Nat) = 40 - ({ mkMachine SystemState.Idle SystemState.Idle 0 with
        isButtonPressed := true } : Machine).buttonPressStartTime ∧
    (classifyPress 40 = PressClassification.NoEvent ∧
      (handleButtonPress { mkMachine SystemState.Idle SystemState.Idle 0 with
        isButtonPressed := true } 40).currentState = SystemState.Idle) :=
  ⟨rfl, rfl,
   ((spec_C1 { mkMachine SystemState.Idle SystemState.Idle 0 with
        isButtonPressed := true } 40 40 rfl rfl).1 (by decide))⟩

/-- Claim C2 (code bug evidence): `storeCalibrationValue` contains no zero
guard: called with `measuredLiquid = 0` and `totalRevolutions = 10` it still
performs the division and still persists to the EEPROM, contradicting the
spec's demand that a zero measured volume be rejected without dividing or
persisting. -/
theorem spec_C2 :
    (storeCalibrationValue 0 10 (fun _ => 0)).didDivide = true ∧
    (storeCalibrationValue 0 10 (fun _ => 0)).didPersist = true :=
  ⟨rfl, rfl⟩

/-- Claim C3: a completed calibration run (`handleCalibratingState`, whose
`totalRevolutions` is hard-coded to 10) whose measured volume reading is 5
computes the ratio `10 / 5 = 2` and persists the byte 2 at
`CALIBRATION_ADDR`, whatever the prior EEPROM contents. -/
theorem spec_C3 (m : Machine) (env : Env)
    (h : mapRange env.analogRaw 0 1023 1 20 = 5) :
    revolutionsPerML 10 5 = (2 : ℚ) ∧
    (handleCalibratingState m env).1.eeprom CALIBRATION_ADDR = 2 := by
  have hq : revolutionsPerML 10 5 = (2 : ℚ) := by norm_num [revolutionsPerML]
  refine ⟨hq, ?_⟩
  simp only [handleCalibratingState, queryForMeasuredLiquid, h,
    storeCalibrationValue, eepromUpdate, if_true]
  rw [hq]
  simp [ratioToByte, Rat.floor_def']

/-- Claim C3 witness: with potentiometer reading 220 (which maps to 5 ml)
and every prior EEPROM byte equal to 77, the run persists 2. -/
theorem spec_C3_witness :
    mapRange 220 0 1023 1 20 = 5 ∧
    (revolutionsPerML 10 5 = (2 : ℚ) ∧
     (handleCalibratingState (mkMachine SystemState.Calibrating
        SystemState.CalibrationMenu 77)
        { buttonLow := false, now := 0, analogRaw := 220 }).1.eeprom
        CALIBRATION_ADDR = 2) :=
  ⟨by decide,
   spec_C3 (mkMachine SystemState.Calibrating SystemState.CalibrationMenu 77)
     { buttonLow := false, now := 0, analogRaw := 220 } (by decide)⟩

/-- Claim C7: `displayCalibrationProgress` maps a percentage onto the
16-cell bar with floor rounding: for every `p ≤ 100` it emits exactly
`p * 16 / 100` filled cells (byte 255) and `16 - p * 16 / 100` unfilled
cells ('_'); in particular 50 gives 8 and 8, 0 gives 0 filled, and 100
gives 16 filled. -/
theorem spec_C7 (p : Nat) (_hp : p ≤ 100) :
    countWrites 255 (displayCalibrationProgress p) = p * 16 / 100 ∧
    countWrites 95 (displayCalibrationProgress p) = 16 - p * 16 / 100 := by
  constructor <;>
    simp [displayCalibrationProgress, countWrites, countWrites_append,
      countWrites_replicate]

/-- Claim C7 witness: at 50 percent the bar has exactly 8 filled and 8
unfilled cells. -/
theorem spec_C7_witness :
    (50 : Nat) ≤ 100 ∧
    countWrites 255 (displayCalibrationProgress 50) = 8 ∧
    countWrites 95 (displayCalibrationProgress 50) = 8 :=
  ⟨by decide,
   ((spec_C7 50 (by decide)).1).trans (by decide),
   ((spec_C7 50 (by decide)).2).trans (by decide)⟩

/-- Claim C8 (code bug evidence): on entry to Idle the handler renders the
centered text "Idle" and the literal `Cal:` `0`: its output is a fixed
action list that never reads the persisted calibration value back. With the
EEPROM byte at `CALIBRATION_ADDR` equal to 7, the rendered list still
prints "0" and does not print "7". -/
theorem spec_C8 :
    (handleIdleState (mkMachine SystemState.Idle SystemState.Idle 7)).2 =
      [LCDAction.setCursor 6 0, LCDAction.lcdPrint "Idle",
       LCDAction.setCursor 0 1, LCDAction.lcdPrint "Cal:",
       LCDAction.lcdPrint "0"] ∧
    (mkMachine SystemState.Idle SystemState.Idle 7).eeprom CALIBRATION_ADDR = 7 ∧
    LCDAction.lcdPrint (toString ((mkMachine SystemState.Idle SystemState.Idle
        7).eeprom CALIBRATION_ADDR)) ∉
      (handleIdleState (mkMachine SystemState.Idle SystemState.Idle 7)).2 :=
  ⟨rfl, rfl, by decide⟩

/-- Claim C9: the measured volume returned by `queryForMeasuredLiquid`
always lies in `[1, 20]` (the raw analog reading in `[0, 1023]` is mapped
onto `[1, 20]`), so the divisor handed to `storeCalibrationValue` at its
only call site is never zero — even though `storeCalibrationValue` itself
has no zero guard and divides and persists for every input, including 0. -/
theorem spec_C9 (raw : Nat) (h : raw ≤ 1023) :
    (1 ≤ (queryForMeasuredLiquid raw).1 ∧ (queryForMeasuredLiquid raw).1 ≤ 20) ∧
    ∀ (ml t : Nat) (e : Nat → Nat),
      (storeCalibrationValue ml t e).didDivide = true ∧
      (storeCalibrationValue ml t e).didPersist = true := by
  refine ⟨?_, fun ml t e => ⟨rfl, rfl⟩⟩
  simp only [queryForMeasuredLiquid, mapRange]
  omega

/-- Claim C9 witness: instantiation at the extreme raw reading 1023, which
maps to 20 ml. -/
theorem spec_C9_witness :
    (1023 : Nat) ≤ 1023 ∧
    ((1 ≤ (queryForMeasuredLiquid 1023).1 ∧ (queryForMeasuredLiquid 1023).1 ≤ 20) ∧
     ∀ (ml t : Nat) (e : Nat → Nat),
       (storeCalibrationValue ml t e).didDivide = true ∧
       (storeCalibrationValue ml t e).didPersist = true) :=
  ⟨by decide, spec_C9 1023 (by decide)⟩

/-- Claim C10: whatever the current state, when `handleButtonPress` sees a
press of duration at least 5000 ms it sets `currentState` to
CalibrationMenu unconditionally — there is no check that the current state
is Idle. -/
theorem spec_C10 (m : Machine) (now : Nat) (hp : m.isButtonPressed = true)
    (hd : 5000 ≤ now - m.buttonPressStartTime) :
    (handleButtonPress m now).currentState = SystemState.CalibrationMenu := by
  rw [handleButtonPress_spec m now hp,
    classifyPress_eq_long (now - m.buttonPressStartTime) hd]

/-- Claim C10 witness: a long press released at time 6000 while in the
Running state still enters CalibrationMenu. -/
theorem spec_C10_witness :
    ({ mkMachine SystemState.Running SystemState.Running 0 with
        isButtonPressed := true } : Machine).isButtonPressed = true ∧
    5000 ≤ 6000 - ({ mkMachine SystemState.Running SystemState.Running 0 with
        isButtonPressed := true } : Machine).buttonPressStartTime ∧
    (handleButtonPress { mkMachine SystemState.Running SystemState.Running 0 with
        isButtonPressed := true } 6000).currentState =
      SystemState.CalibrationMenu :=
  ⟨rfl, by decide,
   spec_C10 { mkMachine SystemState.Running SystemState.Running 0 with
      isButtonPressed := true } 6000 rfl (by decide)⟩

/-- Clear count of a single dispatch: only the Calibrating handler clears
the display (inside `queryForMeasuredLiquid`); no other handler ever
calls `lcd.clear()`. -/
theorem countClears_dispatchState (m : Machine) (env : Env) :
    countClears (dispatchState m env).2 =
      if m.currentState = SystemState.Calibrating then 1 else 0 := by
  cases h : m.currentState <;>
    simp [dispatchState, h, handleIdleState, handleCalibrationMenuState,
      handleCalibratingState, handlePurgingState, handleRunningState,
      handleCanceledState, queryForMeasuredLiquid, centerTextOnLCD,
      countClears, countClears_append] <;>
    split_ifs <;>
    simp [countClears, countClears_append, centerTextOnLCD]

/-- Claim C4 counterexample: on the loop iteration that handles the
transition CalibrationMenu → Calibrating, the display is cleared twice —
once by the dispatcher and once more inside the Calibrating handler (via
`queryForMeasuredLiquid`) — not exactly once as the claim states. -/
theorem spec_C4_counterexample :
    (mkMachine SystemState.Calibrating SystemState.CalibrationMenu 77).currentState ≠
      (mkMachine SystemState.Calibrating SystemState.CalibrationMenu 77).previousState ∧
    countClears (loopIter
      (mkMachine SystemState.Calibrating SystemState.CalibrationMenu 77)
      { buttonLow := false, now := 0, analogRaw := 220 }).2 = 2 :=
  ⟨by decide, by rfl⟩

/-- Claim C4 (amended): per loop iteration, the dispatcher clears the
display exactly once when `currentState ≠ previousState` and never on a
repeated dispatch in an unchanged state; in addition, the Calibrating
handler itself clears exactly once during its dispatch (inside
`queryForMeasuredLiquid`), so an iteration that dispatches Calibrating
performs one extra clear. -/
theorem spec_C4 (m : Machine) (env : Env) :
    countClears (loopIter m env).2 =
      (if m.currentState = m.previousState then 0 else 1) +
      (if m.currentState = SystemState.Calibrating then 1 else 0) := by
  unfold loopIter
  by_cases hc : m.currentState = m.previousState
  · rw [if_neg (fun hne => hne hc), countClears_dispatchState, if_pos hc]
    omega
  · rw [if_pos hc]
    simp only [countClears]
    rw [countClears_dispatchState, if_neg hc]
    show (if m.currentState = SystemState.Calibrating then 1 else 0) + 1 =
      1 + (if m.currentState = SystemState.Calibrating then 1 else 0)
    omega

/-- A loop iteration dispatched in Idle stays in Idle (the Idle handler
never writes `currentState`). -/
theorem loopIter_currentState_of_idle (m : Machine) (env : Env)
    (h : m.currentState = SystemState.Idle) :
    (loopIter m env).1.currentState = SystemState.Idle := by
  unfold loopIter
  split_ifs <;> simp [dispatchState, h, handleIdleState]

/-- Claim C5: while `currentState` is Idle, the transition to
CalibrationMenu happens exactly on a completed button release whose
duration classifies as Long, and the transition to Running happens exactly
on one whose duration classifies as Fast/Short; no other event (loop tick
in Idle, press edge, sub-debounce or ambiguous-band release) produces
either transition. -/
theorem spec_C5 (m : Machine) (e : Event)
    (h : m.currentState = SystemState.Idle) :
    ((step m e).currentState = SystemState.CalibrationMenu ↔
       ∃ d, releaseDuration m e = some d ∧
         classifyPress d = PressClassification.Long) ∧
    ((step m e).currentState = SystemState.Running ↔
       ∃ d, releaseDuration m e = some d ∧
         classifyPress d = PressClassification.Fast) := by
  cases e with
  | tick env =>
      have h1 := loopIter_currentState_of_idle m env h
      simp [step, releaseDuration, h1]
  | isr buttonLow now =>
      cases buttonLow with
      | true =>
          have h1 : (step m (Event.isr true now)).currentState = m.currentState := by
            simp only [step, buttonPressISR, if_true]
            split_ifs <;> rfl
          simp [h1, h, releaseDuration]
      | false =>
          cases hb : m.isButtonPressed with
          | false =>
              simp [step, buttonPressISR, hb, releaseDuration, h]
          | true =>
              have h1 := handleButtonPress_spec m now hb
              have hstep : step m (Event.isr false now) = handleButtonPress m now := by
                simp [step, buttonPressISR, hb]
              have hrd : releaseDuration m (Event.isr false now) =
                  some (now - m.buttonPressStartTime) := by
                simp [releaseDuration, hb]
              rw [hstep, hrd, h1]
              cases hcl : classifyPress (now - m.buttonPressStartTime) <;>
                simp [hcl, h]

/-- Claim C5 witness: instantiation at a machine in Idle with a press in
flight, released at time 6000 (duration 6000, a Long classification). -/
theorem spec_C5_witness :
    idlePressedMachine.currentState = SystemState.Idle ∧
    (((step idlePressedMachine (Event.isr false 6000)).currentState =
        SystemState.CalibrationMenu ↔
       ∃ d, releaseDuration idlePressedMachine (Event.isr false 6000) = some d ∧
         classifyPress d = PressClassification.Long) ∧
     ((step idlePressedMachine (Event.isr false 6000)).currentState =
        SystemState.Running ↔
       ∃ d, releaseDuration idlePressedMachine (Event.isr false 6000) = some d ∧
         classifyPress d = PressClassification.Fast)) :=
  ⟨rfl, spec_C5 idlePressedMachine (Event.isr false 6000) rfl⟩

/-- Claim C6: in the Purging state with purging started, the exit to Idle
happens only on a poll that sees the button released with a release already
stamped (`purgeEndTime ≠ 0`) and strictly more than the 2000 ms settle
delay elapsed since the stamp; any poll that sees the button pressed again
resets `purgeEndTime` to 0 and stays in Purging; and the first released
poll merely stamps `purgeEndTime := now` without exiting. -/
theorem spec_C6 (m : Machine) (env : Env)
    (hs : m.currentState = SystemState.Purging)
    (hp : m.purge.isPurging = true) :
    ((handlePurgingState m env).1.currentState = SystemState.Idle →
       env.buttonLow = false ∧ m.purge.purgeEndTime ≠ 0 ∧
       2000 < env.now - m.purge.purgeEndTime) ∧
    (env.buttonLow = true →
       (handlePurgingState m env).1.purge.purgeEndTime = 0 ∧
       (handlePurgingState m env).1.currentState = SystemState.Purging) ∧
    (env.buttonLow = false → m.purge.purgeEndTime = 0 →
       (handlePurgingState m env).1.currentState = SystemState.Purging ∧
       (handlePurgingState m env).1.purge.purgeEndTime = env.now) := by
  cases hb : env.buttonLow with
  | true =>
      simp [handlePurgingState, hp, hb, hs]
  | false =>
      by_cases h0 : m.purge.purgeEndTime = 0
      · simp [handlePurgingState, hp, hb, h0, hs]
      · by_cases h2 : 2000 < env.now - m.purge.purgeEndTime
        · simp [handlePurgingState, hp, hb, h0, h2, hs]
        · simp [handlePurgingState, hp, hb, h0, h2, hs]

/-- Claim C6 witness: instantiation mid-purge with the release stamped at
time 100 and the poll arriving at time 2200 (2100 ms > 2000 ms elapsed). -/
theorem spec_C6_witness :
    purgingDemoMachine.currentState = SystemState.Purging ∧
    purgingDemoMachine.purge.isPurging = true ∧
    (((handlePurgingState purgingDemoMachine purgingDemoEnv).1.currentState =
        SystemState.Idle →
       purgingDemoEnv.buttonLow = false ∧
       purgingDemoMachine.purge.purgeEndTime ≠ 0 ∧
       2000 < purgingDemoEnv.now - purgingDemoMachine.purge.purgeEndTime) ∧
     (purgingDemoEnv.buttonLow = true →
       (handlePurgingState purgingDemoMachine purgingDemoEnv).1.purge.purgeEndTime = 0 ∧
       (handlePurgingState purgingDemoMachine purgingDemoEnv).1.currentState =
         SystemState.Purging) ∧
     (purgingDemoEnv.buttonLow = false →
       purgingDemoMachine.purge.purgeEndTime = 0 →
       (handlePurgingState purgingDemoMachine purgingDemoEnv).1.currentState =
         SystemState.Purging ∧
       (handlePurgingState purgingDemoMachine purgingDemoEnv).1.purge.purgeEndTime =
         purgingDemoEnv.now)) :=
  ⟨rfl, rfl, spec_C6 purgingDemoMachine purgingDemoEnv rfl rfl⟩
